import Mathlib

/-!
Verification of the AST generator in `src/parser/generate_ast.py`.

The script maps a grammar description — an ordered list of
`(base_name, types)` pairs, where `types` is an ordered list of
`(class_name, fields)` variants and each field is a pass-through string —
to a single Rust source artifact `<output_dir>/ast.rs`.  We embed each
Python function as the ordered list of strings it passes to `f.write`
(one list element per `write` call); the artifact content is the
concatenation of that list.  File-system behaviour of `open(..., 'w')`
and the `with` block is modelled explicitly by `generate_AST_run`.
-/

/-- Python `str.capitalize()` on ASCII strings: the first character is
upper-cased and every remaining character is lower-cased. -/
def pyCapitalize (s : String) : String :=
  match s.data with
  | [] => ""
  | c :: cs => String.mk (c.toUpper :: cs.map Char.toLower)

/-- Python `str.lower()` on ASCII strings. -/
def pyLower (s : String) : String :=
  String.mk (s.data.map Char.toLower)

/-- One variant of a family: `(class_name, fields)`. -/
abbrev Variant := String × List String

/-- One family: `(base_name, types)`. -/
abbrev EnumDescription := String × List Variant

/-- The fixed first `f.write` of `generate_AST`. -/
def importLine : String := "use scanner::\x7bLiteral, Token\x7d;\n"

/-- The four `f.write` calls of `write_ast_struct`, in order. -/
def write_ast_struct_writes : List String :=
  ["\n", "pub struct AST \x7b\n", "    pub root: Vec<Box<Stmt>>,\n", "\x7d\n"]

/-- The string written for one variant inside `write_enum`:
`f'    {class_name}({", ".join(fields)}),\n'`. -/
def variantArm (t : Variant) : String :=
  "    " ++ t.1 ++ "(" ++ String.intercalate ", " t.2 ++ "),\n"

/-- The `f.write` calls of `write_enum`, in order: a blank line, the
`pub enum` header, one line per variant in declaration order, and the
closing brace. -/
def write_enum_writes (base_name : String) (types : List Variant) : List String :=
  "\n" :: ("pub enum " ++ pyCapitalize base_name ++ " \x7b\n") ::
    (types.map variantArm ++ ["\x7d\n"])

/-- The four `f.write` calls of `write_visitor`, in order. -/
def write_visitor_writes (base_name : String) : List String :=
  ["\n",
   "pub trait " ++ pyCapitalize base_name ++ "Visitor<E> \x7b\n",
   "    fn visit_" ++ base_name ++ "(&mut self, " ++ pyLower base_name
     ++ ": &Box<" ++ pyCapitalize base_name ++ ">) -> E;\n",
   "\x7d\n"]

/-- The writes of one loop iteration of `generate_AST`:
`write_enum(f, base_name, types)` then `write_visitor(f, base_name)`. -/
def familyWrites (ed : EnumDescription) : List String :=
  write_enum_writes ed.1 ed.2 ++ write_visitor_writes ed.1

/-- All `f.write` calls performed by `generate_AST`, in order: the import
line, the `write_ast_struct` calls, then the loop body once per family.
The fold mirrors the Python `for` loop appending to the open stream. -/
def generate_AST_writes (enum_descriptions : List EnumDescription) : List String :=
  enum_descriptions.foldl (fun acc ed => acc ++ familyWrites ed)
    (importLine :: write_ast_struct_writes)

/-- The full artifact text produced by a successful run. -/
def generate_AST_content (enum_descriptions : List EnumDescription) : String :=
  String.join (generate_AST_writes enum_descriptions)

/-- A write `w` is the header line of a tagged-union definition exactly
when it starts with the nine characters `pub enum `. -/
def isEnumHeader (w : String) : Bool :=
  w.data.take 9 == ("pub enum ").data

/-- A write `w` is the header line of a visitor-trait definition exactly
when it starts with the ten characters `pub trait `. -/
def isTraitHeader (w : String) : Bool :=
  w.data.take 10 == ("pub trait ").data

/-- A minimal file-system state: the set of existing writable
directories, and a map from paths to file contents. -/
structure FileSystem where
  dirs : List String
  files : List (String × String)
deriving DecidableEq

/-- Create or truncate-and-replace the file at `path`. -/
def setFile (files : List (String × String)) (path content : String) :
    List (String × String) :=
  (path, content) :: files.filter (fun pc => pc.1 != path)

/-- Content of the file at `path`, if it exists. -/
def lookupFile (files : List (String × String)) (path : String) : Option String :=
  (files.find? (fun pc => pc.1 == path)).map (fun pc => pc.2)

/-- Observable outcome of one invocation of `generate_AST`:
whether an exception propagated to the caller, whether the artifact
handle was finalized (closed), and the resulting file system. -/
structure RunResult where
  raised : Bool
  finalized : Bool
  fs : FileSystem
deriving DecidableEq

/-- One invocation of `generate_AST(output_dir, enum_descriptions)`
against the file-system model.  `open(f'{output_dir}/ast.rs', 'w')`
fails (raising, touching nothing) when `output_dir` does not exist;
otherwise the `with` block truncates the file, performs the write
sequence, and closes the handle on every exit path.  `failAt = some k`
injects an I/O failure at the k-th `f.write` call (0-indexed): the
writes before it reach the file, the exception propagates — the script
has no `try`/`except` — and the partial artifact is left in place. -/
def generate_AST_run (fs : FileSystem) (output_dir : String)
    (enum_descriptions : List EnumDescription) (failAt : Option Nat) : RunResult :=
  let path := output_dir ++ "/ast.rs"
  if fs.dirs.contains output_dir then
    let ws := generate_AST_writes enum_descriptions
    match failAt with
    | some k =>
      if k < ws.length then
        ⟨true, true, ⟨fs.dirs, setFile fs.files path (String.join (ws.take k))⟩⟩
      else
        ⟨false, true, ⟨fs.dirs, setFile fs.files path (String.join ws)⟩⟩
    | none => ⟨false, true, ⟨fs.dirs, setFile fs.files path (String.join ws)⟩⟩
  else
    ⟨true, false, fs⟩

/-- The union-type naming rule exactly as the specification words it:
the family name with its first character upper-cased and all remaining
characters unchanged. -/
def specUnionName (f : String) : String :=
  match f.data with
  | [] => ""
  | c :: cs => String.mk (c.toUpper :: cs)

/-- Scenario A grammar description from the specification: one family
`"expr"` with variants `Literal(value)`, `Binary(left, operator, right)`,
`Unary(operator, operand)`, `Grouping(inner)`, written with the concrete
field descriptors the script itself uses for these variants. -/
def scenarioA : List EnumDescription :=
  [("expr",
    [("Literal", ["Literal"]),
     ("Binary", ["Box<Expr>", "Token", "Box<Expr>"]),
     ("Unary", ["Token", "Box<Expr>"]),
     ("Grouping", ["Box<Expr>"])])]

/-- Folding an append-accumulating function equals appending the
flattened map. -/
theorem foldl_append_eq {α β : Type} (f : α → List β) :
    ∀ (l : List α) (acc : List β),
      l.foldl (fun acc ed => acc ++ f ed) acc = acc ++ (l.map f).flatten := by
  intro l
  induction l with
  | nil => intro acc; simp
  | cons a t ih => intro acc; simp [ih, List.append_assoc]

/-- Closed form of the write sequence of `generate_AST`. -/
theorem generate_AST_writes_eq (eds : List EnumDescription) :
    generate_AST_writes eds
      = importLine :: (write_ast_struct_writes ++ (eds.map familyWrites).flatten) := by
  unfold generate_AST_writes
  rw [foldl_append_eq]
  rfl

/-- A variant line never starts with `pub enum `. -/
theorem arm_not_enum (t : Variant) : isEnumHeader (variantArm t) = false := by
  simp [isEnumHeader, variantArm, String.data_append]

/-- A variant line never starts with `pub trait `. -/
theorem arm_not_trait (t : Variant) : isTraitHeader (variantArm t) = false := by
  simp [isTraitHeader, variantArm, String.data_append]

/-- The union header line is recognized by `isEnumHeader`. -/
theorem enumHeader_true (x y : String) : isEnumHeader (("pub enum " ++ x) ++ y) = true := by
  simp [isEnumHeader, String.data_append]

/-- The union header line is not a trait header. -/
theorem enumHeader_not_trait (x y : String) : isTraitHeader (("pub enum " ++ x) ++ y) = false := by
  simp [isTraitHeader, String.data_append]

/-- The trait header line is recognized by `isTraitHeader`. -/
theorem traitHeader_true (x y : String) : isTraitHeader (("pub trait " ++ x) ++ y) = true := by
  simp [isTraitHeader, String.data_append]

/-- The trait header line is not a union header. -/
theorem traitHeader_not_enum (x y : String) : isEnumHeader (("pub trait " ++ x) ++ y) = false := by
  simp [isEnumHeader, String.data_append]

/-- The visit method line is not a union header. -/
theorem fn_line_not_enum (a b c d e f : String) :
    isEnumHeader ("    fn visit_" ++ a ++ b ++ c ++ d ++ e ++ f) = false := by
  simp [isEnumHeader, String.data_append]

/-- The visit method line is not a trait header. -/
theorem fn_line_not_trait (a b c d e f : String) :
    isTraitHeader ("    fn visit_" ++ a ++ b ++ c ++ d ++ e ++ f) = false := by
  simp [isTraitHeader, String.data_append]

/-- None of the variant lines of a union counts as a union header. -/
theorem countP_arms_enum (types : List Variant) :
    List.countP isEnumHeader (types.map variantArm) = 0 := by
  refine List.countP_eq_zero.mpr ?_
  intro a ha
  obtain ⟨t, _, rfl⟩ := List.mem_map.mp ha
  simp [arm_not_enum]

/-- None of the variant lines of a union counts as a trait header. -/
theorem countP_arms_trait (types : List Variant) :
    List.countP isTraitHeader (types.map variantArm) = 0 := by
  refine List.countP_eq_zero.mpr ?_
  intro a ha
  obtain ⟨t, _, rfl⟩ := List.mem_map.mp ha
  simp [arm_not_trait]

/-- A blank line is not a union header. -/
theorem not_enum_nl : isEnumHeader "\n" = false := by decide

/-- A closing brace line is not a union header. -/
theorem not_enum_close : isEnumHeader "\x7d\n" = false := by decide

/-- A blank line is not a trait header. -/
theorem not_trait_nl : isTraitHeader "\n" = false := by decide

/-- A closing brace line is not a trait header. -/
theorem not_trait_close : isTraitHeader "\x7d\n" = false := by decide

/-- `write_enum` emits exactly one union header. -/
theorem countP_enum_writes_enum (b : String) (types : List Variant) :
    List.countP isEnumHeader (write_enum_writes b types) = 1 := by
  rw [write_enum_writes, List.countP_cons, List.countP_cons, List.countP_append,
    countP_arms_enum, enumHeader_true, not_enum_nl]
  decide

/-- `write_enum` emits no trait header. -/
theorem countP_enum_writes_trait (b : String) (types : List Variant) :
    List.countP isTraitHeader (write_enum_writes b types) = 0 := by
  rw [write_enum_writes, List.countP_cons, List.countP_cons, List.countP_append,
    countP_arms_trait, enumHeader_not_trait, not_trait_nl]
  decide

/-- `write_visitor` emits no union header. -/
theorem countP_visitor_writes_enum (b : String) :
    List.countP isEnumHeader (write_visitor_writes b) = 0 := by
  rw [write_visitor_writes, List.countP_cons, List.countP_cons, List.countP_cons,
    List.countP_cons, traitHeader_not_enum, fn_line_not_enum, not_enum_nl, not_enum_close]
  decide

/-- `write_visitor` emits exactly one trait header. -/
theorem countP_visitor_writes_trait (b : String) :
    List.countP isTraitHeader (write_visitor_writes b) = 1 := by
  rw [write_visitor_writes, List.countP_cons, List.countP_cons, List.countP_cons,
    List.countP_cons, traitHeader_true, fn_line_not_trait, not_trait_nl, not_trait_close]
  decide

/-- One loop iteration emits exactly one union header. -/
theorem countP_family_enum (ed : EnumDescription) :
    List.countP isEnumHeader (familyWrites ed) = 1 := by
  rw [familyWrites, List.countP_append, countP_enum_writes_enum, countP_visitor_writes_enum]

/-- One loop iteration emits exactly one trait header. -/
theorem countP_family_trait (ed : EnumDescription) :
    List.countP isTraitHeader (familyWrites ed) = 1 := by
  rw [familyWrites, List.countP_append, countP_enum_writes_trait, countP_visitor_writes_trait]

/-- Summing the constant one over a list gives its length. -/
theorem sum_map_one {α : Type} : ∀ (l : List α), (l.map fun _ => (1 : Nat)).sum = l.length := by
  intro l
  induction l with
  | nil => rfl
  | cons a t ih => simp [ih, Nat.add_comm]

/-- Counting writes: a classifier that never fires on the preamble and
fires exactly once per family block counts the families. -/
theorem countP_generate (p : String → Bool)
    (h0 : List.countP p (importLine :: write_ast_struct_writes) = 0)
    (h1 : ∀ ed : EnumDescription, List.countP p (familyWrites ed) = 1)
    (eds : List EnumDescription) :
    List.countP p (generate_AST_writes eds) = eds.length := by
  rw [generate_AST_writes_eq, ← List.cons_append, List.countP_append, h0,
    List.countP_flatten, List.map_map]
  have h : eds.map (List.countP p ∘ familyWrites) = eds.map fun _ => (1 : Nat) :=
    List.map_congr_left (fun ed _ => h1 ed)
  rw [h, sum_map_one]
  simp

/-- The preamble contains no union header. -/
theorem head_count_enum : List.countP isEnumHeader (importLine :: write_ast_struct_writes) = 0 := by
  decide

/-- The preamble contains no trait header. -/
theorem head_count_trait : List.countP isTraitHeader (importLine :: write_ast_struct_writes) = 0 := by
  decide

/-- Position of the variant lines inside `write_enum`: the write at
index `i + 2` is exactly the line for the i-th declared variant. -/
theorem write_enum_writes_arm (base : String) (types : List Variant)
    (i : Nat) (h : i < types.length) :
    (write_enum_writes base types)[i + 2]? = some (variantArm (types.get ⟨i, h⟩)) := by
  rw [write_enum_writes]
  rw [List.getElem?_cons_succ, List.getElem?_cons_succ]
  rw [List.getElem?_append_left (by simpa using h)]
  rw [List.getElem?_map]
  rw [List.getElem?_eq_getElem h]
  rfl

/-- Association helper for the visitor header string. -/
theorem append_shift (x : String) :
    x ++ "Visitor<E> \x7b\n" = (x ++ "Visitor") ++ "<E> \x7b\n" := by
  rw [String.append_assoc]
  have h : ("Visitor" : String) ++ "<E> \x7b\n" = "Visitor<E> \x7b\n" := by decide
  rw [h]

/-- The writes of a file-lookup after `setFile` find the new content. -/
theorem lookup_setFile (files : List (String × String)) (p c : String) :
    lookupFile (setFile files p c) p = some c := by
  simp [lookupFile, setFile, List.find?]

/-- A run over an existing directory with no injected fault succeeds and
replaces `<output_dir>/ast.rs` with the full artifact content. -/
theorem run_ok (fs : FileSystem) (d : String) (eds : List EnumDescription)
    (hd : fs.dirs.contains d = true) :
    generate_AST_run fs d eds none
      = ⟨false, true, ⟨fs.dirs, setFile fs.files (d ++ "/ast.rs")
          (generate_AST_content eds)⟩⟩ := by
  have hm : d ∈ fs.dirs := by simpa using hd
  simp [generate_AST_run, hm, generate_AST_content]

/-- Claim C1: for every grammar description with at least one family the
artifact write sequence is, in order, the fixed import line referencing
the scanner collaborator, exactly the one RootContainer block, then for
each family in declaration order its tagged-union writes immediately
followed by its visitor-interface writes; consequently the number of
emitted union definitions equals the number of families and the number
of emitted interface definitions equals the number of unions. -/
theorem artifact_structure_and_counts (eds : List EnumDescription) (hne : eds ≠ []) :
    generate_AST_writes eds
        = importLine :: (write_ast_struct_writes ++ (eds.map familyWrites).flatten)
      ∧ List.countP isEnumHeader (generate_AST_writes eds) = eds.length
      ∧ List.countP isTraitHeader (generate_AST_writes eds)
          = List.countP isEnumHeader (generate_AST_writes eds) := by
  clear hne
  refine ⟨generate_AST_writes_eq eds, countP_generate _ head_count_enum countP_family_enum eds, ?_⟩
  rw [countP_generate _ head_count_enum countP_family_enum eds,
    countP_generate _ head_count_trait countP_family_trait eds]

/-- Witness for C1 at the one-family grammar `[("expr", [])]`. -/
theorem artifact_structure_and_counts_witness :
    generate_AST_writes [(("expr" : String), ([] : List Variant))]
        = importLine :: (write_ast_struct_writes
            ++ ([(("expr" : String), ([] : List Variant))].map familyWrites).flatten)
      ∧ List.countP isEnumHeader (generate_AST_writes [(("expr" : String), ([] : List Variant))]) = 1
      ∧ List.countP isTraitHeader (generate_AST_writes [(("expr" : String), ([] : List Variant))])
          = List.countP isEnumHeader (generate_AST_writes [(("expr" : String), ([] : List Variant))]) :=
  artifact_structure_and_counts [("expr", [])] (by decide)

/-- Claim C2: for every family and every variant index, the emitted
union's write at arm position `i` is exactly the line for the i-th
declared variant, carrying its field descriptors verbatim, joined in
exactly the declared order. -/
theorem union_variant_field_order (base : String) (types : List Variant)
    (i : Nat) (h : i < types.length) :
    (write_enum_writes base types)[i + 2]?
      = some ("    " ++ (types.get ⟨i, h⟩).1 ++ "("
          ++ String.intercalate ", " (types.get ⟨i, h⟩).2 ++ "),\n") :=
  write_enum_writes_arm base types i h

/-- Witness for C2 at a concrete variant with two fields. -/
theorem union_variant_field_order_witness :
    (write_enum_writes "expr" [("Assign", ["Token", "Box<Expr>"])])[0 + 2]?
      = some "    Assign(Token, Box<Expr>),\n" :=
  (union_variant_field_order "expr" [("Assign", ["Token", "Box<Expr>"])] 0 (by decide)).trans
    (by decide)

/-- Claim C3 counterexample: for the family name `"eB"` the emitted
union name is `Eb` — Python `capitalize` lower-cases the tail — while
the claimed rule (first character upper-cased, rest unchanged) predicts
`EB`, so the emitted header differs from the claimed one. -/
theorem union_naming_cex :
    (write_enum_writes "eB" [])[1]? = some ("pub enum " ++ pyCapitalize "eB" ++ " \x7b\n")
    ∧ pyCapitalize "eB" = "Eb"
    ∧ specUnionName "eB" = "EB"
    ∧ (write_enum_writes "eB" [])[1]? ≠ some ("pub enum " ++ specUnionName "eB" ++ " \x7b\n") :=
  ⟨rfl, by decide, by decide, by decide⟩

/-- Claim C3 amended: for every family name `f` the emitted union type
name equals `f` with its first character upper-cased and all remaining
characters lower-cased, and the emitted traversal-interface name equals
that union name with the fixed suffix `Visitor` appended. -/
theorem union_naming_amended (f : String) (types : List Variant) :
    ∃ u, (write_enum_writes f types)[1]? = some ("pub enum " ++ u ++ " \x7b\n")
      ∧ (write_visitor_writes f)[1]? = some ("pub trait " ++ (u ++ "Visitor") ++ "<E> \x7b\n")
      ∧ u = pyCapitalize f := by
  refine ⟨pyCapitalize f, ?_, ?_, rfl⟩
  · rw [write_enum_writes, List.getElem?_cons_succ, List.getElem?_cons_zero]
  · rw [write_visitor_writes]
    show some ("pub trait " ++ pyCapitalize f ++ "Visitor<E> \x7b\n") = _
    rw [String.append_assoc, append_shift, ← String.append_assoc, ← String.append_assoc]

/-- Claim C4 counterexample: for the family name `"Expr"` the emitted
operation is `visit_Expr` — the script interpolates the family name
verbatim into the method name — while the claimed rule predicts
`visit_expr`. -/
theorem visit_naming_cex :
    (write_visitor_writes "Expr")[2]?
        = some "    fn visit_Expr(&mut self, expr: &Box<Expr>) -> E;\n"
    ∧ "visit_" ++ pyLower "Expr" = "visit_expr"
    ∧ (write_visitor_writes "Expr")[2]?
        ≠ some "    fn visit_expr(&mut self, expr: &Box<Expr>) -> E;\n" :=
  ⟨by decide, by decide, by decide⟩

/-- Claim C4 amended: the emitted operation name is the fixed prefix
`visit_` concatenated with the family name verbatim (only the parameter
name uses the lower-cased family name); the two coincide exactly when
the family name is already fully lower-case. -/
theorem visit_naming_amended (f : String) :
    (write_visitor_writes f)[2]?
      = some ("    fn visit_" ++ f ++ "(&mut self, " ++ pyLower f
          ++ ": &Box<" ++ pyCapitalize f ++ ">) -> E;\n") := rfl

/-- Claim C5 counterexample: for the Scenario A grammar (single family
`"expr"`) the emitted RootContainer field is the fixed
`root: Vec<Box<Stmt>>` — a sequence of `Stmt` nodes — not a single
owned `Expr` node. -/
theorem root_container_cex :
    (generate_AST_writes scenarioA)[3]? = some "    pub root: Vec<Box<Stmt>>,\n"
    ∧ (generate_AST_writes scenarioA)[3]? ≠ some "    pub root: Box<Expr>,\n" :=
  ⟨by decide, by decide⟩

/-- Claim C5 amended: the emitted RootContainer is fixed text — for
every grammar description it holds the single field
`root: Vec<Box<Stmt>>`, an ordered sequence of owned `Stmt` nodes; no
shape selector exists and the held type does not follow the family
name. -/
theorem root_container_fixed (eds : List EnumDescription) :
    (generate_AST_writes eds)[2]? = some "pub struct AST \x7b\n"
    ∧ (generate_AST_writes eds)[3]? = some "    pub root: Vec<Box<Stmt>>,\n" := by
  rw [generate_AST_writes_eq]
  exact ⟨rfl, rfl⟩

/-- Claim C6: the generator is deterministic — for a fixed grammar
description, any two invocations, over any file systems and output
directories whose target directory exists, produce the same artifact
content, namely `generate_AST_content eds`; the output depends only on
the grammar description. -/
theorem artifact_deterministic (eds : List EnumDescription) (fs₁ fs₂ : FileSystem)
    (d₁ d₂ : String)
    (h₁ : fs₁.dirs.contains d₁ = true) (h₂ : fs₂.dirs.contains d₂ = true) :
    lookupFile (generate_AST_run fs₁ d₁ eds none).fs.files (d₁ ++ "/ast.rs")
        = some (generate_AST_content eds)
    ∧ lookupFile (generate_AST_run fs₂ d₂ eds none).fs.files (d₂ ++ "/ast.rs")
        = lookupFile (generate_AST_run fs₁ d₁ eds none).fs.files (d₁ ++ "/ast.rs") := by
  rw [run_ok fs₁ d₁ eds h₁, run_ok fs₂ d₂ eds h₂]
  exact ⟨lookup_setFile _ _ _, (lookup_setFile _ _ _).trans (lookup_setFile _ _ _).symm⟩

/-- Witness for C6: two runs over different file systems and
directories write the same bytes. -/
theorem artifact_deterministic_witness :
    lookupFile (generate_AST_run ⟨["o"], []⟩ "o" [] none).fs.files ("o" ++ "/ast.rs")
        = some (generate_AST_content [])
    ∧ lookupFile (generate_AST_run ⟨["p"], []⟩ "p" [] none).fs.files ("p" ++ "/ast.rs")
        = lookupFile (generate_AST_run ⟨["o"], []⟩ "o" [] none).fs.files ("o" ++ "/ast.rs") :=
  artifact_deterministic [] ⟨["o"], []⟩ ⟨["p"], []⟩ "o" "p" (by decide) (by decide)

/-- Claim C7: when the output directory does not exist, the invocation
raises before any emission step runs — the file system is left exactly
as it was and no artifact appears at the target path. -/
theorem open_failure_no_artifact (fs : FileSystem) (d : String)
    (eds : List EnumDescription) (failAt : Option Nat)
    (h : fs.dirs.contains d = false) :
    (generate_AST_run fs d eds failAt).raised = true
    ∧ (generate_AST_run fs d eds failAt).fs = fs
    ∧ lookupFile (generate_AST_run fs d eds failAt).fs.files (d ++ "/ast.rs")
        = lookupFile fs.files (d ++ "/ast.rs") := by
  have hm : d ∉ fs.dirs := by simpa using h
  simp [generate_AST_run, hm]

/-- Witness for C7 on an empty file system. -/
theorem open_failure_no_artifact_witness :
    (generate_AST_run ⟨[], []⟩ "out" [] none).raised = true
    ∧ (generate_AST_run ⟨[], []⟩ "out" [] none).fs = ⟨[], []⟩
    ∧ lookupFile (generate_AST_run ⟨[], []⟩ "out" [] none).fs.files ("out" ++ "/ast.rs")
        = lookupFile [] ("out" ++ "/ast.rs") :=
  open_failure_no_artifact ⟨[], []⟩ "out" [] none (by decide)

/-- Claim C8: when a write fails at position `k` of the emission
sequence, the failure propagates to the caller, the artifact handle is
still finalized on that exit path, and the partially written artifact —
the concatenation of the first `k` writes — is left in place with no
cleanup. -/
theorem interrupted_write_keeps_partial (fs : FileSystem) (d : String)
    (eds : List EnumDescription) (k : Nat)
    (hd : fs.dirs.contains d = true) (hk : k < (generate_AST_writes eds).length) :
    (generate_AST_run fs d eds (some k)).raised = true
    ∧ (generate_AST_run fs d eds (some k)).finalized = true
    ∧ lookupFile (generate_AST_run fs d eds (some k)).fs.files (d ++ "/ast.rs")
        = some (String.join ((generate_AST_writes eds).take k)) := by
  have hm : d ∈ fs.dirs := by simpa using hd
  simp [generate_AST_run, hm, hk, lookup_setFile]

/-- Witness for C8: a failure at the third write leaves the first two
writes in the artifact. -/
theorem interrupted_write_keeps_partial_witness :
    (generate_AST_run ⟨["o"], []⟩ "o" [] (some 2)).raised = true
    ∧ (generate_AST_run ⟨["o"], []⟩ "o" [] (some 2)).finalized = true
    ∧ lookupFile (generate_AST_run ⟨["o"], []⟩ "o" [] (some 2)).fs.files ("o" ++ "/ast.rs")
        = some "use scanner::\x7bLiteral, Token\x7d;\n\n" := by
  obtain ⟨a, b, c⟩ := interrupted_write_keeps_partial ⟨["o"], []⟩ "o" [] 2 (by decide) (by decide)
  exact ⟨a, b, c.trans (by decide)⟩

/-- Claim C9: a run over an empty family list still creates the
artifact; its content is exactly the fixed import line followed by the
RootContainer definition, which still references `Stmt`, and it
contains no union and no interface definition. -/
theorem empty_families_artifact (fs : FileSystem) (d : String)
    (hd : fs.dirs.contains d = true) :
    (generate_AST_run fs d [] none).raised = false
    ∧ lookupFile (generate_AST_run fs d [] none).fs.files (d ++ "/ast.rs")
        = some "use scanner::\x7bLiteral, Token\x7d;\n\npub struct AST \x7b\n    pub root: Vec<Box<Stmt>>,\n\x7d\n"
    ∧ List.countP isEnumHeader (generate_AST_writes []) = 0
    ∧ List.countP isTraitHeader (generate_AST_writes []) = 0 := by
  rw [run_ok fs d [] hd]
  refine ⟨rfl, (lookup_setFile _ _ _).trans (by decide), by decide, by decide⟩

/-- Witness for C9 on a one-directory file system. -/
theorem empty_families_artifact_witness :
    (generate_AST_run ⟨["o"], []⟩ "o" [] none).raised = false
    ∧ lookupFile (generate_AST_run ⟨["o"], []⟩ "o" [] none).fs.files ("o" ++ "/ast.rs")
        = some "use scanner::\x7bLiteral, Token\x7d;\n\npub struct AST \x7b\n    pub root: Vec<Box<Stmt>>,\n\x7d\n"
    ∧ List.countP isEnumHeader (generate_AST_writes []) = 0
    ∧ List.countP isTraitHeader (generate_AST_writes []) = 0 :=
  empty_families_artifact ⟨["o"], []⟩ "o" (by decide)

/-- Claim C10: a variant with an empty field list is emitted as its
name followed by empty parentheses — `Name(),` — not as a bare unit
variant. -/
theorem empty_fields_parenthesized (base : String) (types : List Variant) (i : Nat)
    (h : i < types.length) (hf : (types.get ⟨i, h⟩).2 = []) :
    (write_enum_writes base types)[i + 2]?
      = some ("    " ++ (types.get ⟨i, h⟩).1 ++ "(),\n") := by
  rw [write_enum_writes_arm base types i h]
  rw [variantArm, hf]
  have h1 : String.intercalate ", " ([] : List String) = "" := rfl
  rw [h1, String.append_empty]
  rw [String.append_assoc ("    " ++ (types.get ⟨i, h⟩).1) "(" "),\n"]
  have h2 : ("(" : String) ++ "),\n" = "(),\n" := by decide
  rw [h2]

/-- Witness for C10 at a concrete field-less variant. -/
theorem empty_fields_parenthesized_witness :
    (write_enum_writes "stmt" [("Nil", [])])[0 + 2]? = some "    Nil(),\n" :=
  (empty_fields_parenthesized "stmt" [("Nil", [])] 0 (by decide) (by decide)).trans (by decide)
